import Mathlib

/-!
Verification development for the ATS resume generator.

The repository under verification is a small Python service
(`app/services/cv_generator.py`, `app/core/ai.py`, `app/main.py`,
`app/models/schemas.py`).  Its core is a heuristic line classifier that
turns an AI-produced plain-text resume into a sequence of styled blocks,
plus a thin HTTP layer and response-cleanup helpers around an external
generative-AI collaborator.

This file shallowly embeds the relevant program fragments as executable
Lean definitions, translated from the Python source, and proves or
refutes the frozen specification claims about them.

Modelling conventions for Python primitives:
 * `str.strip()` is modelled by `pyStrip`, trimming the ASCII whitespace
   characters space, tab, newline, carriage return, vertical tab and
   form feed (the exotic Unicode spaces Python additionally trims play
   no role in any claim).
 * `str.upper()` is modelled by `pyUpper`, covering the one-to-one ASCII
   and Latin-1 case mappings (the special multi-character mappings such
   as the German sharp s play no role in any claim).
 * `str.split('\n')` is modelled by `pySplitLines`, which has the same
   semantics including the single-empty-string result on `""`.
 * regular expressions are compiled by hand into character-list
   functions, faithful to Python `re` semantics (leftmost match, ordered
   alternation, `re.MULTILINE` anchors) on the pattern in question.
-/

/-! ## Python string primitives -/

/-- Characters removed by Python `str.strip()` (ASCII part). -/
def pyIsSpace (c : Char) : Bool :=
  c == ' ' || c == '\t' || c == '\n' || c == '\r' || c == '\x0b' || c == '\x0c'

/-- Python `s.strip()`. -/
def pyStrip (s : String) : String :=
  String.mk (((s.data.dropWhile pyIsSpace).reverse.dropWhile pyIsSpace).reverse)

/-- Python `str.upper()` on a single character: ASCII `a`-`z` and the
one-to-one Latin-1 lowercase letters are mapped to their uppercase
forms; every other character is left unchanged. -/
def pyUpperChar (c : Char) : Char :=
  if 'a' ≤ c && c ≤ 'z' then Char.ofNat (c.toNat - 32)
  else if 0xE0 ≤ c.toNat && c.toNat ≤ 0xFE && c.toNat != 0xF7 then Char.ofNat (c.toNat - 32)
  else c

/-- Python `s.upper()`. -/
def pyUpper (s : String) : String :=
  String.mk (s.data.map pyUpperChar)

/-- Accumulator pass for splitting on newlines: emit the reversed
accumulator at each newline and at the end of the text. -/
def splitNlGo : List Char → List Char → List String
  | acc, [] => [String.mk acc.reverse]
  | acc, c :: rest =>
    if c = '\n' then String.mk acc.reverse :: splitNlGo [] rest
    else splitNlGo (c :: acc) rest

/-- Python `s.split('\n')`: split at every newline without collapsing,
so the empty string yields one empty field and a trailing newline
yields a trailing empty field. -/
def pySplitLines (s : String) : List String :=
  splitNlGo [] s.data

/-- ASCII uppercase letter, the character class `[A-Z]` of a Python
`str` regular expression. -/
def isUpperAZ (c : Char) : Bool :=
  'A' ≤ c && c ≤ 'Z'

/-- The character class `[A-Z\s]` used by the heading pattern: an ASCII
uppercase letter or a regex whitespace character. -/
def azOrSpace (c : Char) : Bool :=
  isUpperAZ c || pyIsSpace c

/-- The heading test `re.match(r"^[A-Z][A-Z\s]+:$", linha)` from
`cv_generator.py`: the whole line is one ASCII uppercase letter,
followed by one or more ASCII uppercase letters or whitespace
characters, followed by a final colon.  (Lines are matched after
`strip()`, so the `$`-before-trailing-newline quirk of Python `re`
cannot arise.) -/
def isTituloSecao (s : String) : Bool :=
  match s.data with
  | [] => false
  | c :: rest =>
    isUpperAZ c && !(rest.dropLast.isEmpty) && rest.dropLast.all azOrSpace
      && (rest.getLast? == some ':')

/-- Python `linha.startswith(('•', '-', '*'))`. -/
def startsWithBullet (s : String) : Bool :=
  match s.data with
  | [] => false
  | c :: _ => c == '•' || c == '-' || c == '*'

/-- Python `linha[1:]`. -/
def strTail (s : String) : String :=
  String.mk s.data.tail

/-- Python `linha[:-1]`. -/
def strDropLast (s : String) : String :=
  String.mk s.data.dropLast

/-! ## Data model of the composer output

`cv_generator.py` appends ReportLab flowables to a mutable `elementos`
list.  We model a flowable by its constructor and the data the composer
puts into it; the paragraph style records which of the module-level
`ParagraphStyle` constants was used. -/

/-- The `ParagraphStyle` constants of `cv_generator.py`. -/
inductive EstiloP where
  | nome
  | contato
  | tituloSecao
  | itemLista
  | subtitulo
  | detalhe
deriving DecidableEq, Repr

/-- A flowable appended by the composer: a `Paragraph` (with its style
and optional `bulletText`), a `Spacer`, the contact `Table`, or the
`HRFlowable` divider. -/
inductive Elemento where
  | paragraph (estilo : EstiloP) (texto : String) (bulletText : Option String)
  | spacer
  | tabelaContato (dados : List String)
  | divisor
deriving DecidableEq, Repr

/-- The classifier context strings of `cv_generator.py`
(`'inicio'`, `'secao'`, `'subtitulo'`, `'detalhe'`, `'item'`,
`'texto'`). -/
inductive Contexto where
  | inicio
  | secao
  | subtitulo
  | detalhe
  | item
  | texto
deriving DecidableEq, Repr

/-! ## The line classifier `processar_linha` -/

/-- `processar_linha(linha, elementos, contexto)` from
`cv_generator.py`: strips the line, returns unchanged state on a blank
line, and otherwise appends exactly one styled paragraph chosen by the
first matching rule (section heading, subtitle, detail, bullet item,
plain text), prefixing a `Spacer` before a heading when the element list
is non-empty.  The Python function mutates `elementos` and returns the
new context; we return the updated list together with the context. -/
def processar_linha (linha : String) (elementos : List Elemento) (contexto : Contexto) :
    List Elemento × Contexto :=
  let l := pyStrip linha
  if l = "" then (elementos, contexto)
  else if isTituloSecao l then
    let pre := if elementos.isEmpty then elementos else elementos ++ [Elemento.spacer]
    (pre ++ [Elemento.paragraph EstiloP.tituloSecao (pyStrip (strDropLast l)) none],
     Contexto.secao)
  else if contexto == Contexto.secao && !(l.data.contains '•') then
    (elementos ++ [Elemento.paragraph EstiloP.subtitulo l none], Contexto.subtitulo)
  else if (contexto == Contexto.subtitulo || contexto == Contexto.detalhe)
      && l.data.contains '|' then
    (elementos ++ [Elemento.paragraph EstiloP.detalhe l none], Contexto.detalhe)
  else if startsWithBullet l then
    (elementos ++ [Elemento.paragraph EstiloP.itemLista (pyStrip (strTail l)) (some "•")],
     Contexto.item)
  else
    (elementos ++ [Elemento.paragraph EstiloP.detalhe l none], Contexto.texto)

/-- One fold step of the main loop of `criar_pdf_ats_formatado`:
`contexto = processar_linha(linha, elementos, contexto)`. -/
def passoClassificador (acc : List Elemento × Contexto) (linha : String) :
    List Elemento × Contexto :=
  processar_linha linha acc.1 acc.2

/-- Running the classifier loop over a list of lines starting from the
initial context `'inicio'` with an empty element list. -/
def runClassificador (linhas : List String) : List Elemento × Contexto :=
  linhas.foldl passoClassificador ([], Contexto.inicio)

/-! ## The composer `criar_pdf_ats_formatado`

Only the block-composition part of the function is in scope: the
`SimpleDocTemplate` construction and the final `doc.build(elementos)`
call belong to the external layout library. -/

/-- The condition under which a line is collected into `contatos`:
`linha.strip() and not re.match(r"^[A-Z][A-Z\s]+:$", linha.strip())`. -/
def contatoPred (l : String) : Bool :=
  (pyStrip l != "") && !(isTituloSecao (pyStrip l))

/-- The contact-collection loop of `criar_pdf_ats_formatado`: walk the
lines after the name line, appending `linha.strip()` while the line is
non-blank and not a heading, and `break` at the first failure. -/
def coletarContatos (ls : List String) : List String :=
  (ls.takeWhile contatoPred).map pyStrip

/-- The lines following the first (name) line: `linhas[1:]`. -/
def composerTail (texto_cv : String) : List String :=
  (pySplitLines texto_cv).drop 1

/-- The header part of the element list built by
`criar_pdf_ats_formatado`: the uppercased candidate-name paragraph,
then, when any contact lines were collected, the contact table and the
section divider. -/
def cabecalho (texto_cv nome_candidato : String) : List Elemento :=
  let contatos := coletarContatos (composerTail texto_cv)
  let base := [Elemento.paragraph EstiloP.nome (pyUpper nome_candidato) none]
  if contatos.isEmpty then base
  else base ++ [Elemento.tabelaContato contatos, Elemento.divisor]

/-- The element list assembled by `criar_pdf_ats_formatado(texto_cv,
nome_candidato)` just before `doc.build(elementos)`: the header followed
by the classifier fold over `linhas[len(contatos)+1:]` with initial
context `'inicio'`. -/
def criar_elementos (texto_cv nome_candidato : String) : List Elemento :=
  (((pySplitLines texto_cv).drop
      ((coletarContatos (composerTail texto_cv)).length + 1)).foldl passoClassificador
    (cabecalho texto_cv nome_candidato, Contexto.inicio)).1

/-! ## `ai.py`: markdown code-fence cleanup

`limpar_codigo_markdown` runs
`re.sub(r"^```(?:[a-zA-Z0-9]+)?\n?|\n?```$", "", resposta.strip(), flags=re.MULTILINE)`
and strips the result.  We compile the substitution by hand: scan the
stripped text left to right; at each position try the first alternative
(a line-initial fence with an optional language tag and an optional
newline), then the second (an optional newline, a fence, and a line
end); on a match drop the matched characters and continue after them,
otherwise emit the character.  `re` matches against the original string,
so line-start status is tracked from the characters consumed so far. -/

/-- The character class `[a-zA-Z0-9]` of the language tag. -/
def pyIsAlnum (c : Char) : Bool :=
  ('A' ≤ c && c ≤ 'Z') || ('a' ≤ c && c ≤ 'z') || ('0' ≤ c && c ≤ '9')

/-- The backtick character (written by code point to keep source plain). -/
def btChar : Char := Char.ofNat 96

/-- Backtick test. -/
def isB (c : Char) : Bool := c == btChar

/-- Three backticks, the fence delimiter. -/
def fenceChars : List Char := [btChar, btChar, btChar]

/-- Whether the list starts with the three-backtick fence. -/
def startsFence : List Char → Bool
  | a :: b :: c :: _ => isB a && isB b && isB c
  | _ => false

/-- The `re.MULTILINE` anchor `$`: end of string or just before a
newline. -/
def atEol : List Char → Bool
  | [] => true
  | c :: _ => c == '\n'

/-- First alternative `^```(?:[a-zA-Z0-9]+)?\n?`: at a line start, a
fence, a greedy run of alphanumeric tag characters, and an optional
newline.  Returns the line-start status after the match together with
the unconsumed suffix, or `none` when the alternative does not match
here. -/
def openRest (atStart : Bool) (cs : List Char) : Option (Bool × List Char) :=
  if atStart && startsFence cs then
    match (cs.drop 3).dropWhile pyIsAlnum with
    | '\n' :: r => some (true, r)
    | r => some (false, r)
  else none

/-- Second alternative `\n?```$`: an optional newline, a fence, and a
line end.  Returns the unconsumed suffix, or `none` when the
alternative does not match here (the greedy `\n?` backtracks, but a
position starting with a newline can never match the fence without
it). -/
def closeRest (cs : List Char) : Option (List Char) :=
  match cs with
  | [] => none
  | c :: rest =>
    if c == '\n' && startsFence rest && atEol (rest.drop 3) then some (rest.drop 3)
    else if startsFence (c :: rest) && atEol ((c :: rest).drop 3) then some ((c :: rest).drop 3)
    else none

/-- The substitution scan, fuelled for structural recursion; every match
consumes at least three characters, so fuel equal to the list length is
always sufficient. -/
def subFencesF : Nat → Bool → List Char → List Char
  | 0, _, cs => cs
  | _ + 1, _, [] => []
  | fuel + 1, atStart, c :: rest =>
    match openRest atStart (c :: rest) with
    | some br => subFencesF fuel br.1 br.2
    | none =>
      match closeRest (c :: rest) with
      | some r => subFencesF fuel false r
      | none => c :: subFencesF fuel (c == '\n') rest

/-- The full `re.sub` of `limpar_codigo_markdown`, scanning from the
start of the string (which is a line start). -/
def subFences (cs : List Char) : List Char :=
  subFencesF cs.length true cs

/-- `limpar_codigo_markdown(resposta)` from `ai.py`. -/
def limparCodigoMarkdown (resposta : String) : String :=
  pyStrip (String.mk (subFences (pyStrip resposta).data))

/-! ## `ai.py`: job-description analysis

`analisar_vaga_ia` calls the AI, then decodes the response as JSON:
it first searches for `re.search(r'\{.*\}', resposta, re.DOTALL)` —
which, by leftmost-longest greedy matching, is the substring from the
first opening brace to the last closing brace when the latter comes
after the former — and `json.loads` that substring, falling back to
`json.loads` of the whole response.  A `JSONDecodeError` is caught and
turned into the dictionary `{"error": ..., "raw_response": resposta}`.

`json.loads` is an external library; the theorems are parameterised
over the decode function.  Where a concrete decoder is needed, a
pointwise model faithful to `json.loads` on the inputs in question is
used. -/

/-- A decoded Python JSON value. -/
inductive PyJson where
  | null
  | bool (b : Bool)
  | num (n : Int)
  | str (s : String)
  | arr (xs : List PyJson)
  | obj (fields : List (String × PyJson))

/-- The brace search `re.search(r'\{.*\}', s, re.DOTALL)`: the substring
from the first opening brace to the last closing brace, when the
closing brace comes strictly after the opening one. -/
def extractBraces (s : String) : Option String :=
  let ds := s.data
  match ds.findIdx? (· == '{'), ds.reverse.findIdx? (· == '}') with
  | some i, some rj =>
    let j := ds.length - 1 - rj
    if i < j then some (String.mk ((ds.drop i).take (j - i + 1))) else none
  | _, _ => none

/-- The string actually handed to `json.loads`: the brace match when it
exists, the whole response otherwise. -/
def jsonCandidate (resposta : String) : String :=
  (extractBraces resposta).getD resposta

/-- The value returned by `analisar_vaga_ia` after the AI call: either
the decoded JSON value, or the error dictionary
`{"error": ..., "raw_response": resposta}`.  The formatted exception
text interpolated into the message is abbreviated to its constant
part. -/
inductive AnaliseResult where
  | valor (v : PyJson)
  | erroDict (msg : String) (raw_response : String)

/-- The decode step of `analisar_vaga_ia`, parameterised over the
`json.loads` decoder (`none` models a raised `JSONDecodeError`). -/
def analisarVagaParse (jsonLoads : String → Option PyJson) (resposta : String) :
    AnaliseResult :=
  match jsonLoads (jsonCandidate resposta) with
  | some v => AnaliseResult.valor v
  | none => AnaliseResult.erroDict "Falha ao decodificar JSON" resposta

/-- Python truthiness of a decoded JSON value, used by
`resultado_analise.get("error")`. -/
def pyTruthy : PyJson → Bool
  | PyJson.null => false
  | PyJson.bool b => b
  | PyJson.num n => n != 0
  | PyJson.str s => s != ""
  | PyJson.arr xs => !xs.isEmpty
  | PyJson.obj fs => !fs.isEmpty

/-- Dictionary lookup `d.get(k)`. -/
def dictGet (k : String) : List (String × PyJson) → Option PyJson
  | [] => none
  | (k', v) :: rest => if k' = k then some v else dictGet k rest

/-- The response of the `/analisar-vaga` endpoint after the analysis
value is in hand (`main.py`, lines 60-78 plus the surrounding handler):
a `VagaInfoOutput` body carrying an error message and the raw analysis,
a `VagaInfoOutput` body built from the decoded fields, or an
`HTTPException`. -/
inductive EndpointResp where
  | vagaOutErro (error : String) (raw_analysis : AnaliseResult)
  | vagaOutCampos (fields : List (String × PyJson))
  | httpErro (status : Nat)

/-- How `/analisar-vaga` turns the value produced by `analisar_vaga_ia`
into its HTTP response: a dictionary with a truthy `"error"` entry is
returned as an error-plus-raw-data body; any other dictionary is
validated into `VagaInfoOutput` (Pydantic validation is modelled as
succeeding — no claim depends on the success branch); a non-dictionary
value makes `VagaInfoOutput(**...)` raise a `TypeError`, which the
handler's generic `except` turns into a 500 `HTTPException`. -/
def analisarEndpointStep (r : AnaliseResult) : EndpointResp :=
  match r with
  | AnaliseResult.erroDict msg raw => EndpointResp.vagaOutErro msg (AnaliseResult.erroDict msg raw)
  | AnaliseResult.valor (PyJson.obj fs) =>
    match dictGet "error" fs with
    | some v =>
      if pyTruthy v then
        EndpointResp.vagaOutErro "erro presente no dicionario" (AnaliseResult.valor (PyJson.obj fs))
      else EndpointResp.vagaOutCampos fs
    | none => EndpointResp.vagaOutCampos fs
  | AnaliseResult.valor _ => EndpointResp.httpErro 500

/-! ## `main.py`: the PDF-generation endpoint

`gerar_curriculo_pdf_endpoint` is modelled as a function of the payload
and of two external collaborators: the AI text generator behind
`chamar_agente_ia` (one invocation per `analisar_vaga_ia` /
`gerar_texto_cv_ia` call; an `Except.error` models a raised exception)
and the `json.loads` decoder.  Alongside its HTTP outcome the model
returns the number of AI invocations made, so that "rejected before any
AI call" is the statement that the counter is zero. -/

/-- The request payload `GerarCVInput` (`schemas.py`): the user data
(only the candidate name matters to the composer), the optional
pre-computed analysis, and the optional job description. -/
structure GerarCVInput where
  nomeCompleto : String
  vaga_info : Option (List (String × String))
  descricao_vaga : Option String

/-- Python falsiness of an optional string field: absent (`None`) or
empty. -/
def optStrFalsy : Option String → Bool
  | none => true
  | some s => s == ""

/-- The HTTP outcome of the PDF endpoint: an `HTTPException` with its
status code, or a streaming PDF response with its content-disposition
filename. -/
inductive PdfResp where
  | httpErro (status : Nat)
  | pdf (filename : String) (elementos : List Elemento)

/-- Python `s.replace(' ', '_')` for the download filename. -/
def pyReplaceSpaces (s : String) : String :=
  String.mk (s.data.map fun c => if c = ' ' then '_' else c)

/-- `gerar_curriculo_pdf_endpoint(payload)` from `main.py`, returning
the HTTP outcome together with the number of AI invocations performed.
The guard `if not payload.descricao_vaga and not payload.vaga_info`
rejects with a 400 before anything else runs; otherwise the analysis is
obtained (from the AI when only the description is present, from the
payload when the pre-computed analysis is present), the resume text is
generated by a second AI call, and the composed PDF is streamed with the
`CV_<name>_ATS.pdf` filename. -/
def gerarCurriculoPdf (payload : GerarCVInput)
    (chamarIA : String → Except String String)
    (jsonLoads : String → Option PyJson) : PdfResp × Nat :=
  if optStrFalsy payload.descricao_vaga && payload.vaga_info.isNone then
    (PdfResp.httpErro 400, 0)
  else
    let apos : Except String AnaliseResult × Nat :=
      match payload.descricao_vaga, payload.vaga_info with
      | some d, none =>
        (match chamarIA ("analisar:" ++ d) with
         | Except.error e => (Except.error e, 1)
         | Except.ok resposta =>
           (Except.ok (analisarVagaParse jsonLoads (limparCodigoMarkdown resposta)), 1))
      | _, some v => (Except.ok (AnaliseResult.valor (PyJson.obj (v.map fun p => (p.1, PyJson.str p.2)))), 0)
      | _, _ => (Except.error "faltam informacoes", 0)
    match apos with
    | (Except.error _, n) => (PdfResp.httpErro 500, n)
    | (Except.ok (AnaliseResult.erroDict _ _), n) => (PdfResp.httpErro 400, n)
    | (Except.ok _, n) =>
      match chamarIA "gerar" with
      | Except.error _ => (PdfResp.httpErro 500, n + 1)
      | Except.ok texto0 =>
        let texto := limparCodigoMarkdown texto0
        if pyStrip texto = "" then (PdfResp.httpErro 500, n + 1)
        else
          (PdfResp.pdf ("CV_" ++ pyReplaceSpaces payload.nomeCompleto ++ "_ATS.pdf")
            (criar_elementos texto payload.nomeCompleto), n + 1)

/-! ## Helper lemmas -/

theorem isTituloSecao_empty : isTituloSecao "" = false := rfl

theorem processar_linha_blank (linha : String) (elementos : List Elemento)
    (contexto : Contexto) (h : pyStrip linha = "") :
    processar_linha linha elementos contexto = (elementos, contexto) := by
  unfold processar_linha
  simp [h]

theorem foldl_passo_blank (ls : List String) (h : ∀ l ∈ ls, pyStrip l = "")
    (acc : List Elemento × Contexto) : ls.foldl passoClassificador acc = acc := by
  induction ls generalizing acc with
  | nil => rfl
  | cons a t ih =>
    have ha : pyStrip a = "" := h a (List.mem_cons_self a t)
    have ht : ∀ l ∈ t, pyStrip l = "" := fun l hl => h l (List.mem_cons_of_mem a hl)
    simp only [List.foldl_cons, passoClassificador, processar_linha_blank a acc.1 acc.2 ha]
    exact ih ht acc

theorem startsWithBullet_ne_empty (s : String) (h : startsWithBullet s = true) : s ≠ "" := by
  intro he
  rw [he] at h
  exact absurd h (by decide)

theorem startsWithBullet_not_titulo (s : String) (h : startsWithBullet s = true) :
    isTituloSecao s = false := by
  unfold startsWithBullet at h
  unfold isTituloSecao
  match hd : s.data with
  | [] => rfl
  | c :: rest =>
    rw [hd] at h
    have hc : isUpperAZ c = false := by
      rcases Bool.or_eq_true_iff.mp h with h1 | h1
      · rcases Bool.or_eq_true_iff.mp h1 with h2 | h2
        · rw [eq_of_beq h2]; rfl
        · rw [eq_of_beq h2]; rfl
      · rw [eq_of_beq h1]; rfl
    simp [hc]

theorem drop_length_takeWhile {α : Type} (p : α → Bool) (l : List α) :
    l.drop (l.takeWhile p).length = l.dropWhile p := by
  induction l with
  | nil => rfl
  | cons a t ih =>
    by_cases hp : p a
    · simp [List.takeWhile_cons_of_pos hp, List.dropWhile_cons_of_pos hp, ih]
    · simp [List.takeWhile_cons_of_neg hp, List.dropWhile_cons_of_neg hp]

theorem takeWhile_eq_take_length {α : Type} (p : α → Bool) (l : List α) :
    l.takeWhile p = l.take (l.takeWhile p).length := by
  induction l with
  | nil => rfl
  | cons a t ih =>
    by_cases hp : p a
    · simp [List.takeWhile_cons_of_pos hp, List.take_succ_cons, ih.symm]
    · simp [List.takeWhile_cons_of_neg hp]

theorem all_takeWhile {α : Type} (p : α → Bool) (l : List α) :
    (l.takeWhile p).all p = true := by
  induction l with
  | nil => rfl
  | cons a t ih =>
    by_cases hp : p a
    · simp [List.takeWhile_cons_of_pos hp, hp, ih]
    · simp [List.takeWhile_cons_of_neg hp]

/-- Whether the head of a list, when present, fails the predicate. -/
def headFails {α : Type} (p : α → Bool) : List α → Bool
  | [] => true
  | a :: _ => !(p a)

theorem headFails_dropWhile {α : Type} (p : α → Bool) (l : List α) :
    headFails p (l.dropWhile p) = true := by
  induction l with
  | nil => rfl
  | cons a t ih =>
    by_cases hp : p a
    · simp [List.dropWhile_cons_of_pos hp, ih]
    · simp [List.dropWhile_cons_of_neg hp, headFails, hp]

theorem subFencesF_nil (fuel : Nat) (b : Bool) : subFencesF fuel b [] = [] := by
  cases fuel <;> rfl

theorem isB_nl : isB '\n' = false := rfl

theorem startsFence_fence (xs : List Char) :
    startsFence (fenceChars ++ xs) = true := rfl

theorem startsFence_cons_false (c : Char) (xs : List Char) (h : isB c = false) :
    startsFence (c :: xs) = false := by
  unfold startsFence
  match xs with
  | [] => rfl
  | [a] => rfl
  | a :: b :: t => simp [h]

theorem dropWhile_alnum_append (tag : List Char) (ht : tag.all pyIsAlnum = true)
    (r : List Char) :
    (tag ++ '\n' :: r).dropWhile pyIsAlnum = '\n' :: r := by
  induction tag with
  | nil => simp [List.dropWhile_cons_of_neg, pyIsAlnum]
  | cons c t ih =>
    rw [List.all_cons, Bool.and_eq_true] at ht
    simp only [List.cons_append, List.dropWhile_cons_of_pos ht.1]
    exact ih ht.2

theorem openRest_fence (tag : List Char) (ht : tag.all pyIsAlnum = true) (r : List Char) :
    openRest true (fenceChars ++ (tag ++ '\n' :: r)) = some (true, r) := by
  unfold openRest
  rw [startsFence_fence]
  have hdrop : (fenceChars ++ (tag ++ '\n' :: r)).drop 3 = tag ++ '\n' :: r := rfl
  rw [hdrop, dropWhile_alnum_append tag ht r]
  simp

theorem subFencesF_inner (inner : List Char)
    (hin : inner.all (fun c => !(isB c)) = true) :
    ∀ (fuel : Nat) (b : Bool), (inner ++ '\n' :: fenceChars).length ≤ fuel →
      subFencesF fuel b (inner ++ '\n' :: fenceChars) = inner := by
  induction inner with
  | nil =>
    intro fuel b hf
    match fuel, hf with
    | f + 1, _ =>
      show subFencesF (f + 1) b ('\n' :: fenceChars) = []
      have hopen : openRest b ('\n' :: fenceChars) = none := by
        unfold openRest
        rw [startsFence_cons_false '\n' fenceChars isB_nl]
        simp
      have hclose : closeRest ('\n' :: fenceChars) = some [] := rfl
      simp only [subFencesF, hopen, hclose]
      exact subFencesF_nil f false
  | cons c tl ih =>
    intro fuel b hf
    rw [List.all_cons, Bool.and_eq_true] at hin
    have hc : isB c = false := by simpa using hin.1
    match fuel, hf with
    | f + 1, hf =>
      show subFencesF (f + 1) b (c :: (tl ++ '\n' :: fenceChars)) = c :: tl
      have hopen : openRest b (c :: (tl ++ '\n' :: fenceChars)) = none := by
        unfold openRest
        rw [startsFence_cons_false c _ hc]
        simp
      have hrestsf : startsFence (tl ++ '\n' :: fenceChars) = false := by
        match htl : tl with
        | [] => exact startsFence_cons_false '\n' fenceChars isB_nl
        | d :: t' =>
          have hd : isB d = false := by
            have := hin.2
            rw [List.all_cons, Bool.and_eq_true] at this
            simpa using this.1
          exact startsFence_cons_false d _ hd
      have hclose : closeRest (c :: (tl ++ '\n' :: fenceChars)) = none := by
        simp only [closeRest]
        rw [hrestsf, startsFence_cons_false c _ hc]
        simp
      simp only [subFencesF, hopen, hclose]
      have hlen : (tl ++ '\n' :: fenceChars).length ≤ f := by
        simp only [List.length_cons, List.length_append] at hf ⊢
        omega
      rw [ih hin.2 f (c == '\n') hlen]

/-! ## Claims -/

/-- C1 (corrected), counterexample: the claim asserts that every
non-blank line of uppercase letters and spaces ending in a colon — its
own example being `EXPERIÊNCIA PROFISSIONAL:` — classifies as a Heading.
The heading pattern `^[A-Z][A-Z\s]+:$` matches only ASCII uppercase
letters, so the accented `Ê` makes the match fail and the example line
falls through to the plain-text rule: it is classified as a
detail-styled plain paragraph with the colon kept, and the next context
is `texto`, not `secao`. -/
theorem c1_counterexample :
    processar_linha "EXPERIÊNCIA PROFISSIONAL:" [] Contexto.inicio =
      ([Elemento.paragraph EstiloP.detalhe "EXPERIÊNCIA PROFISSIONAL:" none],
       Contexto.texto) := by decide

/-- C1 (corrected), amended claim: for every line whose stripped form
matches the ASCII heading pattern — an ASCII uppercase letter, then one
or more ASCII uppercase letters or whitespace characters, then a final
colon — classification returns, regardless of the previous context, a
Heading block whose display text is the stripped line with the trailing
colon removed and surrounding whitespace trimmed, with a Spacer
prepended exactly when the element list is non-empty, and the next
context is `secao`. -/
theorem c1_amended (linha : String) (elementos : List Elemento) (contexto : Contexto)
    (h : isTituloSecao (pyStrip linha) = true) :
    processar_linha linha elementos contexto =
      ((if elementos.isEmpty then elementos else elementos ++ [Elemento.spacer]) ++
        [Elemento.paragraph EstiloP.tituloSecao (pyStrip (strDropLast (pyStrip linha))) none],
       Contexto.secao) := by
  have hne : ¬(pyStrip linha = "") := by
    intro he
    rw [he, isTituloSecao_empty] at h
    exact absurd h (by decide)
  unfold processar_linha
  simp [hne, h]

/-- C1 witness: the all-ASCII heading line `FORMACAO ACADEMICA:` under
context `texto` with one element already emitted. -/
theorem c1_witness :
    isTituloSecao (pyStrip "FORMACAO ACADEMICA:") = true ∧
    processar_linha "FORMACAO ACADEMICA:" [Elemento.divisor] Contexto.texto =
      ([Elemento.divisor, Elemento.spacer,
        Elemento.paragraph EstiloP.tituloSecao "FORMACAO ACADEMICA" none],
       Contexto.secao) := by
  refine ⟨by decide, ?_⟩
  rw [c1_amended "FORMACAO ACADEMICA:" [Elemento.divisor] Contexto.texto (by decide)]
  decide

/-- C2 (corrected), counterexample: on the four lines of the claim the
classifier does not produce the claimed
Heading/Subtitle/Detail/BulletItem sequence.  `Experiência:` contains
lowercase (and accented) letters, so it fails the heading pattern and
is classified as plain text; with the context never reaching `secao`,
the following two lines are plain text as well. -/
theorem c2_counterexample :
    (runClassificador
      ["Experiência:", "Desenvolvedor", "Empresa X | 2020-2022", "• Fez coisas"]).1 ≠
      [Elemento.paragraph EstiloP.tituloSecao "Experiência" none,
       Elemento.paragraph EstiloP.subtitulo "Desenvolvedor" none,
       Elemento.paragraph EstiloP.detalhe "Empresa X | 2020-2022" none,
       Elemento.paragraph EstiloP.itemLista "Fez coisas" (some "•")] := by decide

/-- C2 (corrected), amended claim: running the classifier over the four
lines `Experiência:`, `Desenvolvedor`, `Empresa X | 2020-2022`,
`• Fez coisas` from the initial context yields three plain-text
(detail-styled) blocks with the lines unchanged, followed by
BulletItem `Fez coisas`, ending in context `item`. -/
theorem c2_amended :
    runClassificador
      ["Experiência:", "Desenvolvedor", "Empresa X | 2020-2022", "• Fez coisas"] =
      ([Elemento.paragraph EstiloP.detalhe "Experiência:" none,
        Elemento.paragraph EstiloP.detalhe "Desenvolvedor" none,
        Elemento.paragraph EstiloP.detalhe "Empresa X | 2020-2022" none,
        Elemento.paragraph EstiloP.itemLista "Fez coisas" (some "•")],
       Contexto.item) := by decide

/-- C3 (corrected), counterexample: a line beginning with `-` is not
classified as a BulletItem when the previous context is `secao`; the
subtitle rule fires first and keeps the marker character. -/
theorem c3_counterexample :
    processar_linha "- Desenvolvedor" [] Contexto.secao =
      ([Elemento.paragraph EstiloP.subtitulo "- Desenvolvedor" none],
       Contexto.subtitulo) ∧
    ([Elemento.paragraph EstiloP.subtitulo "- Desenvolvedor" none],
       Contexto.subtitulo) ≠
      (([Elemento.paragraph EstiloP.itemLista "Desenvolvedor" (some "•")],
       Contexto.item) : List Elemento × Contexto) := by decide

/-- C3 (corrected), amended claim: for every line whose stripped form
begins with `•`, `-` or `*`, the classifier produces a BulletItem block
— one leading marker character stripped, remainder trimmed, displayed
bullet glyph `•` — and moves to context `item`, provided the earlier
context-gated rules do not fire: the previous context must not be
`secao` while the line lacks the glyph `•`, and must not be `subtitulo`
or `detalhe` while the line contains a pipe. -/
theorem c3_amended (linha : String) (elementos : List Elemento) (contexto : Contexto)
    (h1 : startsWithBullet (pyStrip linha) = true)
    (h2 : (contexto == Contexto.secao && !((pyStrip linha).data.contains '•')) = false)
    (h3 : ((contexto == Contexto.subtitulo || contexto == Contexto.detalhe)
      && (pyStrip linha).data.contains '|') = false) :
    processar_linha linha elementos contexto =
      (elementos ++
        [Elemento.paragraph EstiloP.itemLista (pyStrip (strTail (pyStrip linha))) (some "•")],
       Contexto.item) := by
  have hne : ¬(pyStrip linha = "") := startsWithBullet_ne_empty _ h1
  have hti : isTituloSecao (pyStrip linha) = false := startsWithBullet_not_titulo _ h1
  have h2' : ¬(contexto = Contexto.secao ∧ '•' ∉ (pyStrip linha).data) := by
    rintro ⟨ha, hb⟩
    rw [ha] at h2
    simp at h2
    exact hb h2
  have h3' : ¬((contexto = Contexto.subtitulo ∨ contexto = Contexto.detalhe) ∧
      '|' ∈ (pyStrip linha).data) := by
    rintro ⟨ha, hb⟩
    rcases ha with ha | ha <;> rw [ha] at h3 <;> simp at h3 <;> exact h3 hb
  unfold processar_linha
  simp [hne, hti, h2', h3', h1]

/-- C3 witness: the line `* Fez coisas  ` under context `item`. -/
theorem c3_witness :
    startsWithBullet (pyStrip "* Fez coisas  ") = true ∧
    processar_linha "* Fez coisas  " [] Contexto.item =
      ([Elemento.paragraph EstiloP.itemLista "Fez coisas" (some "•")],
       Contexto.item) := by
  refine ⟨by decide, ?_⟩
  rw [c3_amended "* Fez coisas  " [] Contexto.item (by decide) (by decide) (by decide)]
  decide

/-- C9 (confirmed): for a line (already stripped, as the classifier
contract requires) whose first character is `-` or `*`, that does not
contain the bullet glyph `•` and does not match the heading pattern,
classification under previous context `secao` returns a Subtitle block
containing the line unchanged — the marker character is not stripped —
and moves to context `subtitulo`. -/
theorem c9_subtitle_swallows_marker (linha : String) (elementos : List Elemento)
    (h0 : pyStrip linha = linha)
    (hfc : linha.data.head? = some '-' ∨ linha.data.head? = some '*')
    (h2 : linha.data.contains '•' = false)
    (h3 : isTituloSecao linha = false) :
    processar_linha linha elementos Contexto.secao =
      (elementos ++ [Elemento.paragraph EstiloP.subtitulo linha none],
       Contexto.subtitulo) := by
  have hne : ¬(linha = "") := by
    rintro rfl
    rcases hfc with h | h <;> exact absurd h (by decide)
  have hmem : ¬('•' ∈ linha.data) := by
    simp at h2
    exact h2
  unfold processar_linha
  rw [h0]
  simp [hne, h3, hmem]

/-- C9 witness: the line `* Projeto X` directly after a heading. -/
theorem c9_witness :
    pyStrip "* Projeto X" = "* Projeto X" ∧
    processar_linha "* Projeto X" [] Contexto.secao =
      ([Elemento.paragraph EstiloP.subtitulo "* Projeto X" none],
       Contexto.subtitulo) := by
  refine ⟨by decide, ?_⟩
  rw [c9_subtitle_swallows_marker "* Projeto X" [] (by decide) (Or.inr (by decide))
    (by decide) (by decide)]
  rfl

/-- C10 (confirmed): one classification step only appends.  For every
line, element list and context, the resulting element list is the
original followed by a suffix that is empty exactly when the stripped
line is empty, and is otherwise a single block, or — only when the
original list was non-empty — a Spacer immediately followed by a
heading-styled block. -/
theorem c10_append_only (linha : String) (elementos : List Elemento)
    (contexto : Contexto) :
    ∃ s, (processar_linha linha elementos contexto).1 = elementos ++ s ∧
      (s = [] ↔ pyStrip linha = "") ∧
      (s = [] ∨ (∃ b, s = [b]) ∨
        (elementos ≠ [] ∧
          ∃ t, s = [Elemento.spacer, Elemento.paragraph EstiloP.tituloSecao t none])) := by
  by_cases hb : pyStrip linha = ""
  · refine ⟨[], ?_, by simp [hb], Or.inl rfl⟩
    rw [processar_linha_blank _ _ _ hb]
    simp
  · unfold processar_linha
    by_cases ht : isTituloSecao (pyStrip linha) = true
    · by_cases he : elementos.isEmpty
      · refine ⟨[Elemento.paragraph EstiloP.tituloSecao
          (pyStrip (strDropLast (pyStrip linha))) none], ?_, by simp [hb], ?_⟩
        · simp [hb, ht, he]
        · exact Or.inr (Or.inl ⟨_, rfl⟩)
      · refine ⟨[Elemento.spacer, Elemento.paragraph EstiloP.tituloSecao
          (pyStrip (strDropLast (pyStrip linha))) none], ?_, by simp [hb], ?_⟩
        · simp [hb, ht, he]
        · exact Or.inr (Or.inr ⟨by simpa [List.isEmpty_iff] using he, _, rfl⟩)
    · by_cases hsub : contexto = Contexto.secao ∧ '•' ∉ (pyStrip linha).data
      · refine ⟨[Elemento.paragraph EstiloP.subtitulo (pyStrip linha) none], ?_,
          by simp [hb], Or.inr (Or.inl ⟨_, rfl⟩)⟩
        simp [hb, ht, hsub]
      · by_cases hdet : (contexto = Contexto.subtitulo ∨ contexto = Contexto.detalhe) ∧
            '|' ∈ (pyStrip linha).data
        · refine ⟨[Elemento.paragraph EstiloP.detalhe (pyStrip linha) none], ?_,
            by simp [hb], Or.inr (Or.inl ⟨_, rfl⟩)⟩
          simp [hb, ht, hsub, hdet]
        · by_cases hbul : startsWithBullet (pyStrip linha) = true
          · refine ⟨[Elemento.paragraph EstiloP.itemLista
              (pyStrip (strTail (pyStrip linha))) (some "•")], ?_,
              by simp [hb], Or.inr (Or.inl ⟨_, rfl⟩)⟩
            simp [hb, ht, hsub, hdet, hbul]
          · refine ⟨[Elemento.paragraph EstiloP.detalhe (pyStrip linha) none], ?_,
              by simp [hb], Or.inr (Or.inl ⟨_, rfl⟩)⟩
            simp [hb, ht, hsub, hdet, hbul]

/-- C4 (confirmed): for every candidate name, composing a resume text
all of whose lines are blank — which includes the empty text — produces
exactly one block: the name-styled (Heading1-derived) paragraph holding
the uppercased candidate name, and nothing else. -/
theorem c4_blank_resume (texto nome : String)
    (h : ∀ l ∈ pySplitLines texto, pyStrip l = "") :
    criar_elementos texto nome = [Elemento.paragraph EstiloP.nome (pyUpper nome) none] := by
  have htail : ∀ l ∈ composerTail texto, pyStrip l = "" := by
    intro l hl
    exact h l (List.drop_subset 1 (pySplitLines texto) hl)
  have hc : coletarContatos (composerTail texto) = [] := by
    unfold coletarContatos
    cases hcc : composerTail texto with
    | nil => rfl
    | cons a t =>
      have ha : pyStrip a = "" := by
        apply htail
        rw [hcc]
        exact List.mem_cons_self a t
      have hpa : contatoPred a = false := by
        unfold contatoPred
        simp [ha]
      simp [List.takeWhile_cons, hpa]
  have hcab : cabecalho texto nome = [Elemento.paragraph EstiloP.nome (pyUpper nome) none] := by
    unfold cabecalho
    simp [hc]
  unfold criar_elementos
  rw [hc]
  simp only [List.length_nil, Nat.zero_add]
  have hfold : ((pySplitLines texto).drop 1).foldl passoClassificador
      (cabecalho texto nome, Contexto.inicio) = (cabecalho texto nome, Contexto.inicio) :=
    foldl_passo_blank _ htail _
  rw [hfold, hcab]

/-- C4 witness: the empty resume text with candidate name
`Maria Souza` yields exactly the uppercased name block. -/
theorem c4_witness :
    (∀ l ∈ pySplitLines "", pyStrip l = "") ∧
    criar_elementos "" "Maria Souza" =
      [Elemento.paragraph EstiloP.nome "MARIA SOUZA" none] := by
  refine ⟨by decide, ?_⟩
  rw [c4_blank_resume "" "Maria Souza" (by decide)]
  decide

/-- C5 (corrected), counterexample: the claim calls the collected
contact lines a strict prefix of the lines after the name line.  When
no line after the name line is blank or heading-shaped, the scan
collects the entire remainder, which is not a strict prefix of itself:
for the input `Nome\nemail`, the collected lines equal the whole
remainder `[email]`. -/
theorem c5_counterexample :
    coletarContatos (composerTail "Nome\nemail") = composerTail "Nome\nemail" ∧
    composerTail "Nome\nemail" = ["email"] := by decide

/-- C5 (corrected), amended claim: the contact scan collects exactly
the stripped forms of the longest run of lines after the name line that
are non-blank and non-heading; that run is a prefix (not necessarily
strict) of the lines after the name line; every collected line
satisfies the collection condition; the first remaining line, when one
exists, is blank or heading-shaped; and the classifier fold of the
composer consumes exactly the lines after the name line and the
collected run — the scan never resumes and no collected line reaches
the classifier. -/
theorem c5_amended (texto : String) :
    coletarContatos (composerTail texto) =
        ((composerTail texto).takeWhile contatoPred).map pyStrip
    ∧ (composerTail texto).takeWhile contatoPred =
        (composerTail texto).take ((composerTail texto).takeWhile contatoPred).length
    ∧ ((composerTail texto).takeWhile contatoPred).all contatoPred = true
    ∧ headFails contatoPred
        ((composerTail texto).drop (coletarContatos (composerTail texto)).length) = true
    ∧ (pySplitLines texto).drop ((coletarContatos (composerTail texto)).length + 1) =
        (composerTail texto).drop (coletarContatos (composerTail texto)).length
    ∧ ∀ nome, criar_elementos texto nome =
        (((composerTail texto).drop
            (coletarContatos (composerTail texto)).length).foldl passoClassificador
          (cabecalho texto nome, Contexto.inicio)).1 := by
  have hlen : (coletarContatos (composerTail texto)).length =
      ((composerTail texto).takeWhile contatoPred).length := by
    unfold coletarContatos
    exact List.length_map _ _
  have hdroptail : (pySplitLines texto).drop
      ((coletarContatos (composerTail texto)).length + 1) =
      (composerTail texto).drop (coletarContatos (composerTail texto)).length := by
    unfold composerTail
    rw [List.drop_drop]
    rw [Nat.add_comm]
  refine ⟨rfl, takeWhile_eq_take_length _ _, all_takeWhile _ _, ?_, hdroptail, ?_⟩
  · rw [hlen, drop_length_takeWhile]
    exact headFails_dropWhile _ _
  · intro nome
    unfold criar_elementos
    rw [hdroptail]

/-- C6 (confirmed): a request to the PDF endpoint in which both the
job-description field and the pre-computed structured-fields field are
absent is rejected with HTTP 400 and zero AI invocations, for every
candidate name and every behaviour of the AI collaborator and the JSON
decoder. -/
theorem c6_reject_before_ai (nome : String)
    (chamarIA : String → Except String String)
    (jsonLoads : String → Option PyJson) :
    gerarCurriculoPdf ⟨nome, none, none⟩ chamarIA jsonLoads =
      (PdfResp.httpErro 400, 0) := rfl

/-- C7 (corrected), counterexample: the claim covers every AI response
text that is not parseable as a JSON object, but `json.loads`
succeeds on the text `null` (returning Python `None`, not an object).
With a decoder modelled pointwise from `json.loads` at that input, the
extraction returns the bare value with no error marker, and the
analysis endpoint — attempting `VagaInfoOutput(**None)`, a `TypeError`
caught by its generic handler — fails the request with a 500 rather
than returning an error-plus-raw-data object. -/
theorem c7_counterexample :
    analisarVagaParse (fun s => if s = "null" then some PyJson.null else none) "null" =
      AnaliseResult.valor PyJson.null ∧
    analisarEndpointStep (AnaliseResult.valor PyJson.null) = EndpointResp.httpErro 500 :=
  ⟨rfl, rfl⟩

/-- C7 (corrected), amended claim: for every AI response text on which
the attempted JSON decode fails (a `JSONDecodeError`, modelled by the
decoder returning `none` on the string the code hands it), the
extraction does not raise: it returns the dictionary carrying the
error marker and the raw response text, and the analysis endpoint
returns that error-plus-raw-data object to the caller instead of
failing the request. -/
theorem c7_amended (jsonLoads : String → Option PyJson) (resposta : String)
    (h : jsonLoads (jsonCandidate resposta) = none) :
    analisarVagaParse jsonLoads resposta =
      AnaliseResult.erroDict "Falha ao decodificar JSON" resposta ∧
    analisarEndpointStep (analisarVagaParse jsonLoads resposta) =
      EndpointResp.vagaOutErro "Falha ao decodificar JSON"
        (AnaliseResult.erroDict "Falha ao decodificar JSON" resposta) := by
  unfold analisarVagaParse
  rw [h]
  exact ⟨rfl, rfl⟩

/-- C7 witness: a decoder that always fails, on the response text
`resposta sem JSON`. -/
theorem c7_witness :
    ((fun _ : String => (none : Option PyJson)) (jsonCandidate "resposta sem JSON")
        = none) ∧
    analisarVagaParse (fun _ => none) "resposta sem JSON" =
      AnaliseResult.erroDict "Falha ao decodificar JSON" "resposta sem JSON" :=
  ⟨rfl, (c7_amended (fun _ => none) "resposta sem JSON" rfl).1⟩

/-- C8 (corrected), counterexample: the claim covers every text wrapped
in triple-backtick fences, including inner texts that themselves
contain fence lines.  The input below is the wrap of the inner text
`a`-newline-fence-newline-`b`; the `re.MULTILINE` substitution also
deletes the inner fence line, so the cleanup returns `a`-newline-`b`
rather than the inner text. -/
theorem c8_counterexample :
    pyStrip "```\na\n```\nb\n```" = "```" ++ "\n" ++ "a\n```\nb" ++ "\n" ++ "```" ∧
    limparCodigoMarkdown "```\na\n```\nb\n```" = "a\nb" ∧
    ("a\nb" : String) ≠ "a\n```\nb" := by decide

/-- C8 (corrected), amended claim: for every AI response text that,
after stripping, is wrapped in triple-backtick code fences — an opening
fence with an optional alphanumeric language tag on its own line, the
inner text, and a closing fence line — where the inner text contains no
backtick, the cleanup step returns the inner text with both fences
removed (and surrounding whitespace trimmed by the final strip). -/
theorem c8_amended (resposta : String) (tag inner : List Char)
    (htag : tag.all pyIsAlnum = true)
    (hin : inner.all (fun c => !(isB c)) = true)
    (hshape : (pyStrip resposta).data =
      fenceChars ++ (tag ++ '\n' :: (inner ++ '\n' :: fenceChars))) :
    limparCodigoMarkdown resposta = pyStrip (String.mk inner) := by
  unfold limparCodigoMarkdown subFences
  rw [hshape]
  obtain ⟨m, hm⟩ : ∃ m, (fenceChars ++ (tag ++ '\n' :: (inner ++ '\n' :: fenceChars))).length
      = m + 1 := by
    refine ⟨(tag ++ '\n' :: (inner ++ '\n' :: fenceChars)).length + 2, ?_⟩
    simp [fenceChars]
  rw [hm]
  have hfc : ∀ X : List Char, fenceChars ++ X = btChar :: btChar :: btChar :: X :=
    fun X => rfl
  have hstep : subFencesF (m + 1) true
      (fenceChars ++ (tag ++ '\n' :: (inner ++ '\n' :: fenceChars))) =
      subFencesF m true (inner ++ '\n' :: fenceChars) := by
    have hopen := openRest_fence tag htag (inner ++ '\n' :: fenceChars)
    rw [hfc] at hopen
    rw [hfc]
    simp only [subFencesF, hopen]
  rw [hstep]
  have hlen : (inner ++ '\n' :: fenceChars).length ≤ m := by
    simp only [List.length_append, List.length_cons, fenceChars] at hm ⊢
    omega
  rw [subFencesF_inner inner hin m true hlen]

/-- C8 witness: the fenced response with language tag `json` and inner
text `chave: valor`. -/
theorem c8_witness :
    (pyStrip "```json\nchave: valor\n```").data =
      fenceChars ++ (("json".data) ++ '\n' :: (("chave: valor".data) ++ '\n' :: fenceChars)) ∧
    limparCodigoMarkdown "```json\nchave: valor\n```" = "chave: valor" := by
  refine ⟨by decide, ?_⟩
  rw [c8_amended "```json\nchave: valor\n```" ("json".data) ("chave: valor".data)
    (by decide) (by decide) (by decide)]
  decide
